import Mathlib

/-!
Shallow embedding of the reliability-incident core of
`src/evals/reliability_eval.py` (classes `FailureType`, `InterventionType`,
`FailureIncident`, `SignupAttempt`, and the methods of
`ReliabilityEvaluator`), together with theorems settling the claims about
its specification.

Modelling conventions:
- Timestamps are rationals measured in minutes (the source uses `datetime`
  values; only differences and `timedelta(minutes=...)` arithmetic matter).
- Random draws (`random.random()`) are injected as explicit rational
  arguments, or as a stream `ℕ → ℚ` for the retry cascade (one draw per
  retry round, success when the draw is `< 0.8`, exactly as in the source).
- The `incident_id` (built in the source from the wall clock and a random
  integer) is injected as a string argument.
- Python dictionaries that preserve insertion order are modelled as
  association lists updated in place (`bump`), and `max(..., key=...)`
  (which keeps the first maximum) as a left fold keeping the current
  element unless the next count is strictly greater.
-/

/-- The `FailureType` enum, in source declaration order. -/
inductive FailureType where
  | authentication_failed
  | network_timeout
  | payment_declined
  | program_full
  | site_maintenance
  | captcha_challenge
  | rate_limited
  | form_validation_error
deriving DecidableEq, Repr

/-- Position of a category in the source declaration order of `FailureType`. -/
def FailureType.declIdx : FailureType → ℕ
  | .authentication_failed => 0
  | .network_timeout => 1
  | .payment_declined => 2
  | .program_full => 3
  | .site_maintenance => 4
  | .captcha_challenge => 5
  | .rate_limited => 6
  | .form_validation_error => 7

/-- The `InterventionType` enum. -/
inductive InterventionType where
  | manual_login
  | credential_update
  | payment_method_update
  | customer_support
  | system_restart
deriving DecidableEq, Repr

/-- The `FailureIncident` dataclass. Defaults mirror the source defaults. -/
structure FailureIncident where
  incident_id : String
  signup_id : String
  provider : String
  failure_type : FailureType
  timestamp : ℚ
  resolved : Bool := false
  resolution_time : Option ℚ := none
  retry_count : ℕ := 0
  manual_intervention : Bool := false
  intervention_type : Option InterventionType := none
  error_message : String := ""
deriving DecidableEq, Repr

/-- The `SignupAttempt` dataclass. Defaults mirror the source defaults. -/
structure SignupAttempt where
  signup_id : String
  user_id : String
  provider : String
  program_id : String
  timestamp : ℚ
  success : Bool
  failure_incident : Option FailureIncident := none
  retry_of : Option String := none
deriving DecidableEq, Repr

/-- Weight table of `_generate_failure_incident` for provider skiclubpro. -/
def skiclubproTable : List (FailureType × ℚ) :=
  [(.authentication_failed, 3/10), (.rate_limited, 2/10),
   (.network_timeout, 2/10), (.payment_declined, 15/100),
   (.site_maintenance, 1/10), (.captcha_challenge, 5/100)]

/-- Weight table of `_generate_failure_incident` for provider daysmart. -/
def daysmartTable : List (FailureType × ℚ) :=
  [(.form_validation_error, 25/100), (.program_full, 25/100),
   (.network_timeout, 2/10), (.authentication_failed, 15/100),
   (.payment_declined, 15/100)]

/-- Weight table of `_generate_failure_incident` for the `else` branch
(the source comments it as campminder, but it catches every provider other
than skiclubpro and daysmart). -/
def campminderTable : List (FailureType × ℚ) :=
  [(.program_full, 4/10), (.payment_declined, 2/10),
   (.network_timeout, 2/10), (.authentication_failed, 2/10)]

/-- The `if provider == 'skiclubpro' ... elif ... else` chain selecting
the weight table in `_generate_failure_incident`. -/
def failure_types (provider : String) : List (FailureType × ℚ) :=
  if provider = "skiclubpro" then skiclubproTable
  else if provider = "daysmart" then daysmartTable
  else campminderTable

/-- The weighted-selection loop of `_generate_failure_incident`: walk the
table accumulating weights, break on the first entry whose cumulative
weight is ≥ the draw; the initialisation `failure_type = NETWORK_TIMEOUT`
is the value kept when the loop never breaks. -/
def selectFailureLoop (rand : ℚ) : List (FailureType × ℚ) → ℚ → FailureType
  | [], _ => .network_timeout
  | (ft, w) :: rest, cumulative =>
    if rand ≤ cumulative + w then ft else selectFailureLoop rand rest (cumulative + w)

/-- Weighted category selection (`cumulative` starts at 0). -/
def selectFailureType (table : List (FailureType × ℚ)) (rand : ℚ) : FailureType :=
  selectFailureLoop rand table 0

/-- The `failure_type in [CAPTCHA_CHALLENGE, SITE_MAINTENANCE,
AUTHENTICATION_FAILED]` test of `_generate_failure_incident`. -/
def requiresIntervention (ft : FailureType) : Bool :=
  [FailureType.captcha_challenge, FailureType.site_maintenance,
   FailureType.authentication_failed].contains ft

/-- The intervention-kind assignment of `_generate_failure_incident`. -/
def interventionFor (required : Bool) (ft : FailureType) : Option InterventionType :=
  if required then
    if ft = .captcha_challenge then some .manual_login
    else if ft = .authentication_failed then some .credential_update
    else if ft = .site_maintenance then some .customer_support
    else none
  else none

/-- `_get_error_message`: the dictionary covers every member of the enum. -/
def get_error_message : FailureType → String
  | .authentication_failed => "Invalid username or password"
  | .network_timeout => "Request timed out after 30 seconds"
  | .payment_declined => "Payment was declined by your bank"
  | .program_full => "This program is currently full"
  | .site_maintenance => "Site is under maintenance"
  | .captcha_challenge => "CAPTCHA verification required"
  | .rate_limited => "Too many requests, please try again later"
  | .form_validation_error => "Please check all required fields"

/-- `_generate_failure_incident`, with the random draw and the generated
incident id injected as arguments. -/
def generate_failure_incident (signup_id provider : String) (timestamp : ℚ)
    (rand : ℚ) (incident_id : String) : FailureIncident :=
  let ft := selectFailureType (failure_types provider) rand
  let required := requiresIntervention ft
  { incident_id := incident_id
    signup_id := signup_id
    provider := provider
    failure_type := ft
    timestamp := timestamp
    manual_intervention := required
    intervention_type := interventionFor required ft
    error_message := get_error_message ft }

/-- A concrete original failed attempt used in concrete instantiations. -/
def origAttempt : SignupAttempt :=
  { signup_id := "signup_0001", user_id := "user_1", provider := "skiclubpro",
    program_id := "program_1", timestamp := 0, success := false }

/-- A concrete retry-eligible incident (network timeout) as the classifier
would produce it for a transient category. -/
def ntIncident : FailureIncident :=
  { incident_id := "incident_1", signup_id := "signup_0001",
    provider := "skiclubpro", failure_type := .network_timeout,
    timestamp := 0,
    error_message := get_error_message .network_timeout }

/-- A draw stream on which every retry round fails (1 ≥ 0.8). -/
def allFailDraws : ℕ → ℚ := fun _ => 1

/-- A draw stream on which every retry round succeeds (0 < 0.8). -/
def allOkDraws : ℕ → ℚ := fun _ => 0

/-- A draw stream failing round 1 and succeeding from round 2 on. -/
def failThenOkDraws : ℕ → ℚ := fun n => if n = 0 then 1 else 0

/-- A retry attempt as built in both branches of the `while` loop of
`_simulate_retries` (round number `rc`, scheduled 5·rc minutes after the
incident's creation timestamp; `failure_incident` stays at its default
`None`). -/
def mkRetryAttempt (orig : SignupAttempt) (inc : FailureIncident)
    (rc : ℕ) (succ : Bool) : SignupAttempt :=
  { signup_id := orig.signup_id ++ "_retry_" ++ toString rc
    user_id := orig.user_id
    provider := orig.provider
    program_id := orig.program_id
    timestamp := inc.timestamp + rc * 5
    success := succ
    retry_of := some orig.signup_id }

/-- The `while retry_count < max_retries and not incident.resolved` loop of
`_simulate_retries`, unrolled on the remaining budget `fuel`
(`fuel = max_retries - done`, `done` = rounds already run). Round
`done + 1` draws `draws done`; success when the draw is `< 0.8`. On
success the incident is resolved in place and the loop breaks; on failure
the incident is untouched and the loop continues. Returns the final
incident and the created retry attempts in round order. -/
def retryRounds (orig : SignupAttempt) (draws : ℕ → ℚ) :
    ℕ → ℕ → FailureIncident → FailureIncident × List SignupAttempt
  | 0, _, inc => (inc, [])
  | fuel + 1, done, inc =>
    if inc.resolved then (inc, [])
    else
      let rc := done + 1
      if draws done < 4/5 then
        ({ inc with resolved := true
                    resolution_time := some (inc.timestamp + rc * 5)
                    retry_count := rc },
         [mkRetryAttempt orig inc rc true])
      else
        let next := retryRounds orig draws fuel rc inc
        (next.1, mkRetryAttempt orig inc rc false :: next.2)

/-- `_simulate_retries`: skip the cascade entirely for `PROGRAM_FULL` and
`PAYMENT_DECLINED`; otherwise run up to 3 rounds, and if the incident is
still unresolved afterwards force `manual_intervention = True` and default
a missing intervention type to `CUSTOMER_SUPPORT`. Returns the mutated
incident together with the retry attempts appended to the ledger. -/
def simulate_retries (orig : SignupAttempt) (inc : FailureIncident)
    (draws : ℕ → ℚ) : FailureIncident × List SignupAttempt :=
  if inc.failure_type = .program_full ∨ inc.failure_type = .payment_declined then
    (inc, [])
  else
    let res := retryRounds orig draws 3 0 inc
    if res.1.resolved then res
    else
      ({ res.1 with
          manual_intervention := true
          intervention_type :=
            match res.1.intervention_type with
            | none => some InterventionType.customer_support
            | some t => some t },
       res.2)

/-- Insertion sort used to model `failure_times.sort()` (ascending). -/
def insertSorted (x : ℚ) : List ℚ → List ℚ
  | [] => [x]
  | y :: ys => if x ≤ y then x :: y :: ys else y :: insertSorted x ys

/-- Ascending sort of a list of timestamps. -/
def sortTimes (l : List ℚ) : List ℚ := l.foldr insertSorted []

/-- Consecutive differences `failure_times[i+1] - failure_times[i]`. -/
def timeGaps : List ℚ → List ℚ
  | a :: b :: rest => (b - a) :: timeGaps (b :: rest)
  | _ => []

/-- Update of a Python dict `d[k] = d.get(k, 0) + 1`: insertion order is
preserved for existing keys and new keys are appended at the end. -/
def bump {α : Type} [DecidableEq α] : List (α × ℕ) → α → List (α × ℕ)
  | [], x => [(x, 1)]
  | (k, v) :: rest, x =>
    if k = x then (k, v + 1) :: rest else (k, v) :: bump rest x

/-- The `failure_type_counts` dict of `calculate_reliability_metrics`,
built by iterating the incident ledger in order. -/
def failureTypeCountsOf (incidents : List FailureIncident) :
    List (FailureType × ℕ) :=
  incidents.foldl (fun acc i => bump acc i.failure_type) []

/-- Python `max(counts.items(), key=lambda x: x[1])[0]`: scans the items in
insertion order and keeps the current item unless the next count is
strictly greater, so ties go to the earliest item. `none` when empty. -/
def mostCommonOf {α : Type} : List (α × ℕ) → Option α
  | [] => none
  | x :: rest =>
    some (rest.foldl (fun best p => if p.2 > best.2 then p else best) x).1

/-- Maximum of a recovery-time list (`max(recovery_times)`); the source
guards the empty case separately, here mapped to 0. -/
def listMax : List ℚ → ℚ
  | [] => 0
  | x :: xs => xs.foldl max x

/-- The failed attempts of the ledger (`not a.success`). -/
def failedAttempts (attempts : List SignupAttempt) : List SignupAttempt :=
  attempts.filter (fun a => !a.success)

/-- The internal MTBF computation: `float('inf')` (modelled as `none`)
with fewer than 2 failed attempts, otherwise the mean consecutive gap of
the sorted failure timestamps, converted from minutes to hours. -/
def mtbfHoursOpt (attempts : List SignupAttempt) : Option ℚ :=
  let failed := failedAttempts attempts
  if failed.length > 1 then
    let times := sortTimes (failed.map (fun a => a.timestamp))
    let deltas := timeGaps times
    some ((deltas.sum / (deltas.length : ℚ)) / 60)
  else
    none

/-- The snapshot dictionary returned by `calculate_reliability_metrics`.
The wall-clock `timestamp` entry and the `provider_metrics` entry (keyed
by a Python `set`, with nondeterministic iteration order) are outside the
claims and omitted. -/
structure ReliabilitySnapshot where
  total_attempts : ℕ
  successful_attempts : ℕ
  failed_attempts : ℕ
  failure_rate : ℚ
  success_rate : ℚ
  mtbf_hours : ℚ
  total_retries : ℕ
  successful_retries : ℕ
  retry_success_rate : ℚ
  avg_retries_per_failure : ℚ
  avg_recovery_time_minutes : ℚ
  max_recovery_time_minutes : ℚ
  resolved_incidents : ℕ
  total_incidents : ℕ
  manual_interventions : ℕ
  intervention_rate : ℚ
  intervention_types : List (InterventionType × ℕ)
  failure_type_counts : List (FailureType × ℕ)
  most_common_failure : Option FailureType
deriving DecidableEq, Repr

/-- `calculate_reliability_metrics`, reducing the ledger (all attempts and
all incidents) to a snapshot. Every guarded division follows the source:
a zero denominator yields 0. The `mtbf_hours` entry is
`mtbf_hours if mtbf_hours != float('inf') else 0`. -/
def calculate_reliability_metrics (attempts : List SignupAttempt)
    (incidents : List FailureIncident) : ReliabilitySnapshot :=
  let total := attempts.length
  let failed := failedAttempts attempts
  let successful := attempts.filter (fun a => a.success)
  let failure_rate : ℚ := if total > 0 then (failed.length : ℚ) / total else 0
  let retry_attempts := attempts.filter (fun a => a.retry_of.isSome)
  let original_failures :=
    attempts.filter (fun a => !a.success && a.retry_of.isNone)
  let successful_retries := retry_attempts.filter (fun a => a.success)
  let retry_success_rate : ℚ :=
    if original_failures.isEmpty then 0
    else (successful_retries.length : ℚ) / original_failures.length
  let mtbf : ℚ := match mtbfHoursOpt attempts with
    | none => 0
    | some v => v
  let resolved := incidents.filter (fun i => i.resolved)
  let recovery_times :=
    resolved.filterMap (fun i => i.resolution_time.map (fun rt => rt - i.timestamp))
  let avg_recovery : ℚ :=
    if resolved.isEmpty then 0
    else if recovery_times.isEmpty then 0
    else recovery_times.sum / (recovery_times.length : ℚ)
  let max_recovery : ℚ :=
    if resolved.isEmpty then 0
    else if recovery_times.isEmpty then 0
    else listMax recovery_times
  let counts := failureTypeCountsOf incidents
  let manual := incidents.filter (fun i => i.manual_intervention)
  let intervention_rate : ℚ :=
    if total > 0 then (manual.length : ℚ) / total else 0
  let int_counts := manual.foldl
    (fun acc i => match i.intervention_type with
      | some t => bump acc t
      | none => acc) []
  { total_attempts := total
    successful_attempts := successful.length
    failed_attempts := failed.length
    failure_rate := failure_rate
    success_rate := 1 - failure_rate
    mtbf_hours := mtbf
    total_retries := retry_attempts.length
    successful_retries := successful_retries.length
    retry_success_rate := retry_success_rate
    avg_retries_per_failure :=
      if original_failures.isEmpty then 0
      else (retry_attempts.length : ℚ) / original_failures.length
    avg_recovery_time_minutes := avg_recovery
    max_recovery_time_minutes := max_recovery
    resolved_incidents := resolved.length
    total_incidents := incidents.length
    manual_interventions := manual.length
    intervention_rate := intervention_rate
    intervention_types := int_counts
    failure_type_counts := counts
    most_common_failure := mostCommonOf counts }

/-! ## Claim C1 -/

/-- C1 counterexample: classification of the unknown provider string
"not_a_provider" does not fail: it silently selects the campminder weight
table (the `else` branch of `_generate_failure_incident`) and returns an
ordinary incident (payment_declined at draw 1/2). -/
theorem c1_counterexample :
    failure_types "not_a_provider" = campminderTable ∧
    (generate_failure_incident "s1" "not_a_provider" 0 (1/2) "i1").failure_type
      = FailureType.payment_declined := by
  have ht : failure_types "not_a_provider" = campminderTable := by
    unfold failure_types
    rw [if_neg (by decide), if_neg (by decide)]
  refine ⟨ht, ?_⟩
  show selectFailureType (failure_types "not_a_provider") (1/2) = _
  rw [ht]
  norm_num [selectFailureType, selectFailureLoop, campminderTable]

/-- C1 (corrected): for every provider string other than "skiclubpro" and
"daysmart" — in particular every unknown provider — classification never
fails: it silently uses the campminder weight table and produces the same
failure category as for campminder. -/
theorem c1_unknown_provider_defaults (p sid iid : String) (ts rand : ℚ)
    (h1 : p ≠ "skiclubpro") (h2 : p ≠ "daysmart") :
    failure_types p = campminderTable ∧
    (generate_failure_incident sid p ts rand iid).failure_type =
      selectFailureType campminderTable rand := by
  have ht : failure_types p = campminderTable := by
    unfold failure_types
    rw [if_neg h1, if_neg h2]
  refine ⟨ht, ?_⟩
  show selectFailureType (failure_types p) rand = _
  rw [ht]

/-- C1 witness: the corrected claim instantiated at the concrete unknown
provider "zzz" with draw 1/2. -/
theorem c1_witness :
    ("zzz" ≠ "skiclubpro") ∧ ("zzz" ≠ "daysmart") ∧
    (failure_types "zzz" = campminderTable ∧
      (generate_failure_incident "s1" "zzz" 0 (1/2) "i1").failure_type =
        selectFailureType campminderTable (1/2)) :=
  ⟨by decide, by decide,
   c1_unknown_provider_defaults "zzz" "s1" "i1" 0 (1/2) (by decide) (by decide)⟩

/-! ## Claim C2 -/

/-- A one-element ledger holding a single failed original attempt. -/
def soloFailedAttempt : SignupAttempt :=
  { signup_id := "signup_0002", user_id := "user_2", provider := "daysmart",
    program_id := "program_2", timestamp := 0, success := false }

/-- C2 counterexample: on a ledger with exactly one failed attempt the
internal MTBF is the infinity sentinel, but the snapshot's `mtbf_hours`
entry is the plain numeric value 0, not a sentinel distinct from 0. -/
theorem c2_counterexample :
    mtbfHoursOpt [soloFailedAttempt] = none ∧
    (calculate_reliability_metrics [soloFailedAttempt] []).mtbf_hours = 0 := by
  have hm : mtbfHoursOpt [soloFailedAttempt] = none := by
    norm_num [mtbfHoursOpt, failedAttempts, soloFailedAttempt]
  exact ⟨hm, by simp [calculate_reliability_metrics, hm]⟩

/-- C2 (corrected): for every ledger with 0 or 1 failed attempts, the MTBF
is internally the infinity sentinel (`none`), and the snapshot reports the
numeric value 0 for `mtbf_hours` (the source writes
`mtbf_hours if mtbf_hours != float('inf') else 0`); no error is raised. -/
theorem c2_mtbf_degenerate (attempts : List SignupAttempt)
    (incidents : List FailureIncident)
    (h : (failedAttempts attempts).length ≤ 1) :
    mtbfHoursOpt attempts = none ∧
    (calculate_reliability_metrics attempts incidents).mtbf_hours = 0 := by
  have hm : mtbfHoursOpt attempts = none := by
    unfold mtbfHoursOpt
    rw [if_neg (by omega)]
  exact ⟨hm, by simp [calculate_reliability_metrics, hm]⟩

/-- C2 witness: the corrected claim instantiated at the one-failure ledger. -/
theorem c2_witness :
    (failedAttempts [soloFailedAttempt]).length ≤ 1 ∧
    (mtbfHoursOpt [soloFailedAttempt] = none ∧
      (calculate_reliability_metrics [soloFailedAttempt] []).mtbf_hours = 0) :=
  ⟨by simp [failedAttempts, soloFailedAttempt],
   c2_mtbf_degenerate [soloFailedAttempt] []
     (by simp [failedAttempts, soloFailedAttempt])⟩

/-! ## Claim C3 -/

/-- C3 counterexample: an eligible (network timeout) cascade in which all
3 rounds fail creates 3 retry attempts, yet the incident's `retry_count`
stays 0 — the source only assigns `incident.retry_count` inside the
success branch. -/
theorem c3_counterexample :
    (simulate_retries origAttempt ntIncident allFailDraws).2.length = 3 ∧
    (simulate_retries origAttempt ntIncident allFailDraws).1.retry_count = 0 := by
  constructor
  · norm_num [simulate_retries, retryRounds, ntIncident, origAttempt,
      allFailDraws, mkRetryAttempt]
    rw [if_neg (by decide :
      ¬(FailureType.network_timeout = FailureType.program_full ∨
        FailureType.network_timeout = FailureType.payment_declined))]
    rfl
  · norm_num [simulate_retries, retryRounds, ntIncident, origAttempt,
      allFailDraws, mkRetryAttempt]
    rw [if_neg (by decide :
      ¬(FailureType.network_timeout = FailureType.program_full ∨
        FailureType.network_timeout = FailureType.payment_declined))]

/-- C3 (corrected): starting from an unresolved incident with
`retry_count = 0`, the cascade leaves `retry_count ≤ 3`; when the cascade
resolves the incident, `retry_count` equals the number of retry attempts
created; but when the incident ends unresolved (including after an
exhausted 3-round cascade), `retry_count` remains 0. -/
theorem c3_retry_count (orig : SignupAttempt) (inc : FailureIncident)
    (draws : ℕ → ℚ) (h0 : inc.retry_count = 0) (h1 : inc.resolved = false) :
    (simulate_retries orig inc draws).1.retry_count ≤ 3 ∧
    ((simulate_retries orig inc draws).1.resolved = true →
      (simulate_retries orig inc draws).1.retry_count =
        (simulate_retries orig inc draws).2.length) ∧
    ((simulate_retries orig inc draws).1.resolved = false →
      (simulate_retries orig inc draws).1.retry_count = 0) := by
  by_cases he : inc.failure_type = .program_full ∨ inc.failure_type = .payment_declined
  · simp [simulate_retries, he, h0, h1]
  · by_cases hd0 : draws 0 < 4/5
    · simp [simulate_retries, retryRounds, he, h1, hd0]
    · by_cases hd1 : draws 1 < 4/5
      · simp [simulate_retries, retryRounds, he, h1, hd0, hd1]
      · by_cases hd2 : draws 2 < 4/5
        · simp [simulate_retries, retryRounds, he, h1, hd0, hd1, hd2]
        · simp [simulate_retries, retryRounds, he, h0, h1, hd0, hd1, hd2]

/-- C3 witness: the corrected claim instantiated at the all-fail cascade. -/
theorem c3_witness :
    ntIncident.retry_count = 0 ∧ ntIncident.resolved = false ∧
    ((simulate_retries origAttempt ntIncident allFailDraws).1.retry_count ≤ 3 ∧
      ((simulate_retries origAttempt ntIncident allFailDraws).1.resolved = true →
        (simulate_retries origAttempt ntIncident allFailDraws).1.retry_count =
          (simulate_retries origAttempt ntIncident allFailDraws).2.length) ∧
      ((simulate_retries origAttempt ntIncident allFailDraws).1.resolved = false →
        (simulate_retries origAttempt ntIncident allFailDraws).1.retry_count = 0)) :=
  ⟨rfl, rfl, c3_retry_count origAttempt ntIncident allFailDraws rfl rfl⟩

/-! ## Claim C4 -/

/-- A minimal incident with a given id and category, for metric ledgers. -/
def mkIncOf (iid : String) (ft : FailureType) : FailureIncident :=
  { incident_id := iid, signup_id := iid, provider := "skiclubpro",
    failure_type := ft, timestamp := 0 }

/-- A ledger whose category counts are tied: rate_limited and
authentication_failed both occur twice, rate_limited first. -/
def tieLedger : List FailureIncident :=
  [mkIncOf "i1" .rate_limited, mkIncOf "i2" .rate_limited,
   mkIncOf "i3" .authentication_failed, mkIncOf "i4" .authentication_failed]

/-- The running count of the `mostCommonOf` scan never decreases. -/
lemma mostCommonScan_ge {α : Type} (x : α × ℕ) (l : List (α × ℕ)) :
    x.2 ≤ (l.foldl (fun best p => if p.2 > best.2 then p else best) x).2 := by
  induction l generalizing x with
  | nil => simp
  | cons p t ih =>
    simp only [List.foldl_cons]
    by_cases h : p.2 > x.2
    · exact le_trans (le_of_lt h) (by simpa [h] using ih p)
    · simpa [h] using ih x

/-- The `mostCommonOf` scan returns the first maximum: the items before it
have strictly smaller counts, the items after it have counts ≤ its count. -/
lemma mostCommonScan_split {α : Type} (x : α × ℕ) (l : List (α × ℕ)) :
    ∃ l1 l2,
      x :: l = l1 ++ (l.foldl (fun best p => if p.2 > best.2 then p else best) x) :: l2 ∧
      (∀ p ∈ l1, p.2 < (l.foldl (fun best p => if p.2 > best.2 then p else best) x).2) ∧
      (∀ p ∈ l2, p.2 ≤ (l.foldl (fun best p => if p.2 > best.2 then p else best) x).2) := by
  induction l generalizing x with
  | nil => exact ⟨[], [], by simp, by simp, by simp⟩
  | cons p t ih =>
    simp only [List.foldl_cons]
    by_cases h : p.2 > x.2
    · obtain ⟨l1, l2, heq, hlt, hle⟩ := ih p
      rw [if_pos h]
      refine ⟨x :: l1, l2, ?_, ?_, hle⟩
      · rw [List.cons_append]
        exact congrArg (x :: ·) heq
      · intro q hq
        rcases List.mem_cons.mp hq with hq | hq
        · subst hq
          exact lt_of_lt_of_le h (mostCommonScan_ge p t)
        · exact hlt q hq
    · obtain ⟨l1, l2, heq, hlt, hle⟩ := ih x
      rw [if_neg h]
      cases l1 with
      | nil =>
        simp only [List.nil_append] at heq
        injection heq with hx ht
        refine ⟨[], p :: l2, ?_, by simp, ?_⟩
        · rw [List.nil_append, ← hx, ← ht]
        · intro q hq
          rcases List.mem_cons.mp hq with hq | hq
          · subst hq
            rw [← hx]
            omega
          · exact hle q hq
      | cons a l1t =>
        rw [List.cons_append] at heq
        injection heq with hx ht
        refine ⟨x :: p :: l1t, l2, ?_, ?_, hle⟩
        · rw [List.cons_append, List.cons_append, ← ht]
        · intro q hq
          have ha : a.2 < (t.foldl (fun best p => if p.2 > best.2 then p else best) x).2 :=
            hlt a (by simp)
          have hx2 : x.2 = a.2 := congrArg Prod.snd hx
          rcases List.mem_cons.mp hq with hq | hq
          · rw [hq, hx2]
            exact ha
          · rcases List.mem_cons.mp hq with hq | hq
            · have hpx : p.2 ≤ x.2 := Nat.le_of_not_lt h
              rw [hq]
              exact lt_of_le_of_lt (hx2 ▸ hpx) ha
            · exact hlt q (by simp [hq])

/-- A dict update never produces an empty table. -/
lemma bump_ne_nil {α : Type} [DecidableEq α] (acc : List (α × ℕ)) (x : α) :
    bump acc x ≠ [] := by
  cases acc with
  | nil => simp [bump]
  | cons p t =>
    obtain ⟨k, v⟩ := p
    by_cases h : k = x <;> simp [bump, h]

/-- Folding dict updates over a list keeps the table nonempty once it is
nonempty or the list is. -/
lemma foldl_bump_ne_nil (incidents : List FailureIncident) :
    ∀ acc : List (FailureType × ℕ), acc ≠ [] ∨ incidents ≠ [] →
      incidents.foldl (fun acc i => bump acc i.failure_type) acc ≠ [] := by
  induction incidents with
  | nil =>
    intro acc h
    simpa using h.resolve_right (by simp)
  | cons i t ih =>
    intro acc _
    simp only [List.foldl_cons]
    exact ih (bump acc i.failure_type) (Or.inl (bump_ne_nil acc i.failure_type))

/-- C4 counterexample: on a ledger where rate_limited and
authentication_failed are tied with count 2, the snapshot's most common
failure is rate_limited (first encountered in ledger order), although
authentication_failed is declared first in the `FailureType` enumeration. -/
theorem c4_counterexample :
    (calculate_reliability_metrics [] tieLedger).failure_type_counts =
      [(FailureType.rate_limited, 2), (FailureType.authentication_failed, 2)] ∧
    (calculate_reliability_metrics [] tieLedger).most_common_failure =
      some FailureType.rate_limited ∧
    FailureType.declIdx FailureType.authentication_failed <
      FailureType.declIdx FailureType.rate_limited := by
  refine ⟨?_, ?_, by decide⟩ <;>
    simp [calculate_reliability_metrics, failureTypeCountsOf, bump,
      mostCommonOf, tieLedger, mkIncOf]

/-- C4 (corrected): on every nonempty incident ledger the snapshot's most
common failure is the category holding the first maximal count of the
insertion-ordered counts table, i.e. ties are broken by the category first
encountered in ledger order (deterministic for a fixed ledger), not by the
`FailureType` declaration order. -/
theorem c4_most_common_first_encountered (attempts : List SignupAttempt)
    (incidents : List FailureIncident) (h : incidents ≠ []) :
    ∃ ft c l1 l2,
      (calculate_reliability_metrics attempts incidents).most_common_failure =
        some ft ∧
      failureTypeCountsOf incidents = l1 ++ (ft, c) :: l2 ∧
      (∀ p ∈ l1, p.2 < c) ∧ (∀ p ∈ l2, p.2 ≤ c) := by
  have hne : failureTypeCountsOf incidents ≠ [] :=
    foldl_bump_ne_nil incidents [] (Or.inr h)
  obtain ⟨x, rest, hx⟩ := List.exists_cons_of_ne_nil hne
  obtain ⟨l1, l2, heq, hlt, hle⟩ := mostCommonScan_split x rest
  set r := rest.foldl (fun best p => if p.2 > best.2 then p else best) x with hr
  refine ⟨r.1, r.2, l1, l2, ?_, ?_, hlt, hle⟩
  · have : (calculate_reliability_metrics attempts incidents).most_common_failure =
        mostCommonOf (failureTypeCountsOf incidents) := rfl
    rw [this, hx]
    simp [mostCommonOf, hr]
  · rw [hx, heq]

/-- C4 witness: the corrected claim instantiated at the tied ledger. -/
theorem c4_witness :
    tieLedger ≠ [] ∧
    (∃ ft c l1 l2,
      (calculate_reliability_metrics [] tieLedger).most_common_failure =
        some ft ∧
      failureTypeCountsOf tieLedger = l1 ++ (ft, c) :: l2 ∧
      (∀ p ∈ l1, p.2 < c) ∧ (∀ p ∈ l2, p.2 ≤ c)) :=
  ⟨by simp [tieLedger],
   c4_most_common_first_encountered [] tieLedger (by simp [tieLedger])⟩

/-! ## Claim C5 -/

/-- C5 (confirmed): for an eligible unresolved incident whose success draw
first passes in round k (1 ≤ k ≤ 3), the cascade creates exactly k retry
attempts in round order — round i+1 being
`mkRetryAttempt orig inc (i+1) (decide (i+1 = k))`, i.e. failed for the
first k−1 rounds and successful in round k, scheduled at
`inc.timestamp + (i+1)·5` minutes with `retry_of` the original attempt id
— and resolves the incident with
`resolution_time = inc.timestamp + k·5` and `retry_count = k`. -/
theorem c5_success_round (orig : SignupAttempt) (inc : FailureIncident)
    (draws : ℕ → ℚ) (k : ℕ) (hk1 : 1 ≤ k) (hk3 : k ≤ 3)
    (he : ¬(inc.failure_type = .program_full ∨ inc.failure_type = .payment_declined))
    (hres : inc.resolved = false)
    (hfail : ∀ i, i < k - 1 → ¬(draws i < 4/5))
    (hsucc : draws (k - 1) < 4/5) :
    (simulate_retries orig inc draws).2.length = k ∧
    (∀ i, i < k →
      (simulate_retries orig inc draws).2[i]? =
        some (mkRetryAttempt orig inc (i + 1) (decide (i + 1 = k)))) ∧
    (simulate_retries orig inc draws).1.resolved = true ∧
    (simulate_retries orig inc draws).1.resolution_time =
      some (inc.timestamp + (k : ℚ) * 5) ∧
    (simulate_retries orig inc draws).1.retry_count = k := by
  interval_cases k
  · norm_num at hsucc
    refine ⟨?_, ?_, ?_, ?_, ?_⟩ <;>
      simp [simulate_retries, retryRounds, he, hres, hsucc]
  · have hd0 : ¬ draws 0 < 4/5 := hfail 0 (by omega)
    norm_num at hsucc
    refine ⟨?_, ?_, ?_, ?_, ?_⟩ <;>
      simp [simulate_retries, retryRounds, he, hres, hd0, hsucc]
    intro i hi
    interval_cases i <;> simp
  · have hd0 : ¬ draws 0 < 4/5 := hfail 0 (by omega)
    have hd1 : ¬ draws 1 < 4/5 := hfail 1 (by omega)
    norm_num at hsucc
    refine ⟨?_, ?_, ?_, ?_, ?_⟩ <;>
      simp [simulate_retries, retryRounds, he, hres, hd0, hd1, hsucc]
    intro i hi
    interval_cases i <;> simp

/-- C5 witness: concrete two-round cascade (round 1 fails, round 2
succeeds) for the network-timeout incident. -/
theorem c5_witness :
    ¬(ntIncident.failure_type = .program_full ∨
      ntIncident.failure_type = .payment_declined) ∧
    ntIncident.resolved = false ∧
    (∀ i, i < 2 - 1 → ¬(failThenOkDraws i < 4/5)) ∧
    failThenOkDraws (2 - 1) < 4/5 ∧
    ((simulate_retries origAttempt ntIncident failThenOkDraws).2.length = 2 ∧
      (∀ i, i < 2 →
        (simulate_retries origAttempt ntIncident failThenOkDraws).2[i]? =
          some (mkRetryAttempt origAttempt ntIncident (i + 1)
            (decide (i + 1 = 2)))) ∧
      (simulate_retries origAttempt ntIncident failThenOkDraws).1.resolved = true ∧
      (simulate_retries origAttempt ntIncident failThenOkDraws).1.resolution_time =
        some (ntIncident.timestamp + (2 : ℚ) * 5) ∧
      (simulate_retries origAttempt ntIncident failThenOkDraws).1.retry_count = 2) :=
  ⟨by decide, rfl,
   by
    intro i hi
    have hz : i = 0 := by omega
    subst hz
    norm_num [failThenOkDraws],
   by norm_num [failThenOkDraws],
   c5_success_round origAttempt ntIncident failThenOkDraws 2 (by norm_num)
     (by norm_num) (by decide) rfl
     (by
       intro i hi
       have hz : i = 0 := by omega
       subst hz
       norm_num [failThenOkDraws])
     (by norm_num [failThenOkDraws])⟩

/-! ## Claim C6 -/

/-- C6 (confirmed): an eligible unresolved incident whose cascade fails in
all 3 rounds ends unresolved with `manual_intervention = true`; the
intervention kind defaults to customer_support when the classifier set
none, and is preserved when the classifier had set one. -/
theorem c6_exhausted_cascade (orig : SignupAttempt) (inc : FailureIncident)
    (draws : ℕ → ℚ)
    (he : ¬(inc.failure_type = .program_full ∨ inc.failure_type = .payment_declined))
    (hres : inc.resolved = false)
    (hfail : ∀ i, i < 3 → ¬(draws i < 4/5)) :
    (simulate_retries orig inc draws).1.resolved = false ∧
    (simulate_retries orig inc draws).1.manual_intervention = true ∧
    (inc.intervention_type = none →
      (simulate_retries orig inc draws).1.intervention_type =
        some InterventionType.customer_support) ∧
    (∀ t, inc.intervention_type = some t →
      (simulate_retries orig inc draws).1.intervention_type = some t) := by
  have hd0 : ¬ draws 0 < 4/5 := hfail 0 (by omega)
  have hd1 : ¬ draws 1 < 4/5 := hfail 1 (by omega)
  have hd2 : ¬ draws 2 < 4/5 := hfail 2 (by omega)
  cases hit : inc.intervention_type <;>
    simp [simulate_retries, retryRounds, he, hres, hd0, hd1, hd2, hit]

/-- C6 witness: the exhausted cascade instantiated at the concrete
network-timeout incident with the all-fail draw stream. -/
theorem c6_witness :
    ¬(ntIncident.failure_type = .program_full ∨
      ntIncident.failure_type = .payment_declined) ∧
    ntIncident.resolved = false ∧
    (∀ i, i < 3 → ¬(allFailDraws i < 4/5)) ∧
    ((simulate_retries origAttempt ntIncident allFailDraws).1.resolved = false ∧
      (simulate_retries origAttempt ntIncident allFailDraws).1.manual_intervention
        = true ∧
      (ntIncident.intervention_type = none →
        (simulate_retries origAttempt ntIncident allFailDraws).1.intervention_type
          = some InterventionType.customer_support) ∧
      (∀ t, ntIncident.intervention_type = some t →
        (simulate_retries origAttempt ntIncident allFailDraws).1.intervention_type
          = some t)) :=
  ⟨by decide, rfl, by intro i _; norm_num [allFailDraws],
   c6_exhausted_cascade origAttempt ntIncident allFailDraws (by decide) rfl
     (by intro i _; norm_num [allFailDraws])⟩

/-! ## Claim C7 -/

/-- C7 (confirmed): for every incident the classifier produces with
category program_full or payment_declined, the cascade is skipped: no
retry attempts are created, the incident is returned unchanged, and it
carries `resolved = false`, `retry_count = 0`, and
`manual_intervention = false` exactly as the classifier set them. -/
theorem c7_ineligible_skipped (sid p iid : String) (ts rand : ℚ)
    (orig : SignupAttempt) (draws : ℕ → ℚ)
    (h : (generate_failure_incident sid p ts rand iid).failure_type = .program_full ∨
         (generate_failure_incident sid p ts rand iid).failure_type = .payment_declined) :
    simulate_retries orig (generate_failure_incident sid p ts rand iid) draws =
      (generate_failure_incident sid p ts rand iid, []) ∧
    (generate_failure_incident sid p ts rand iid).resolved = false ∧
    (generate_failure_incident sid p ts rand iid).retry_count = 0 ∧
    (generate_failure_incident sid p ts rand iid).manual_intervention = false := by
  refine ⟨?_, rfl, rfl, ?_⟩
  · unfold simulate_retries
    rw [if_pos h]
  · have hm : (generate_failure_incident sid p ts rand iid).manual_intervention =
        requiresIntervention
          ((generate_failure_incident sid p ts rand iid).failure_type) := rfl
    rw [hm]
    rcases h with h | h <;> rw [h] <;> decide

/-- C7 witness: the campminder table at draw 1/5 yields program_full, and
the cascade leaves that incident untouched. -/
theorem c7_witness :
    ((generate_failure_incident "s1" "campminder" 0 (1/5) "i1").failure_type =
        .program_full ∨
      (generate_failure_incident "s1" "campminder" 0 (1/5) "i1").failure_type =
        .payment_declined) ∧
    (simulate_retries origAttempt
        (generate_failure_incident "s1" "campminder" 0 (1/5) "i1") allFailDraws =
      (generate_failure_incident "s1" "campminder" 0 (1/5) "i1", []) ∧
    (generate_failure_incident "s1" "campminder" 0 (1/5) "i1").resolved = false ∧
    (generate_failure_incident "s1" "campminder" 0 (1/5) "i1").retry_count = 0 ∧
    (generate_failure_incident "s1" "campminder" 0 (1/5) "i1").manual_intervention
      = false) := by
  have h : (generate_failure_incident "s1" "campminder" 0 (1/5) "i1").failure_type =
      FailureType.program_full ∨
      (generate_failure_incident "s1" "campminder" 0 (1/5) "i1").failure_type =
      FailureType.payment_declined := by
    left
    show selectFailureType (failure_types "campminder") (1/5) = _
    have ht : failure_types "campminder" = campminderTable := by
      unfold failure_types
      rw [if_neg (by decide), if_neg (by decide)]
    rw [ht]
    norm_num [selectFailureType, selectFailureLoop, campminderTable]
  exact ⟨h, c7_ineligible_skipped "s1" "campminder" "i1" 0 (1/5) origAttempt
    allFailDraws h⟩

/-! ## Claim C8 -/

/-- Cumulative weight of the first `n` entries of a weight table. -/
def cumWeight (table : List (FailureType × ℚ)) (n : ℕ) : ℚ :=
  ((table.take n).map (fun p => p.2)).sum

/-- The weight-table chain evaluated at "skiclubpro". -/
lemma failure_types_ski : failure_types "skiclubpro" = skiclubproTable := by
  unfold failure_types
  rw [if_pos rfl]

/-- The weight-table chain evaluated at "daysmart". -/
lemma failure_types_day : failure_types "daysmart" = daysmartTable := by
  unfold failure_types
  rw [if_neg (by decide), if_pos rfl]

/-- The weight-table chain evaluated at "campminder". -/
lemma failure_types_camp : failure_types "campminder" = campminderTable := by
  unfold failure_types
  rw [if_neg (by decide), if_neg (by decide)]

/-- When no cumulative weight reaches the draw, the selection loop runs
off the table and keeps the initialisation value network_timeout. -/
lemma selectFailureLoop_all_miss (rand : ℚ) :
    ∀ (table : List (FailureType × ℚ)) (cum : ℚ),
      (∀ m, m < table.length → ¬ rand ≤ cum + cumWeight table (m + 1)) →
      selectFailureLoop rand table cum = .network_timeout := by
  intro table
  induction table with
  | nil => intro cum _; rfl
  | cons p t ih =>
    intro cum h
    obtain ⟨ft, w⟩ := p
    have hcw : ∀ j : ℕ, cumWeight ((ft, w) :: t) (j + 1) = w + cumWeight t j := by
      intro j
      simp [cumWeight]
    have h0 : ¬ rand ≤ cum + w := by
      have := h 0 (by simp)
      rw [hcw 0] at this
      simp only [cumWeight, List.take_zero, List.map_nil, List.sum_nil, add_zero] at this
      exact this
    simp only [selectFailureLoop]
    rw [if_neg h0]
    apply ih
    intro m hm
    have hmm := h (m + 1) (by simpa using Nat.succ_lt_succ hm)
    rw [hcw (m + 1)] at hmm
    intro hle
    exact hmm (by linarith)

/-- The selection loop returns the entry at the least index whose
cumulative weight (offset by the accumulated prefix `cum`) reaches the
draw. -/
lemma selectFailureLoop_hit (rand : ℚ) :
    ∀ (table : List (FailureType × ℚ)) (cum : ℚ) (n : ℕ),
      n < table.length →
      rand ≤ cum + cumWeight table (n + 1) →
      (∀ m, m < n → ¬ rand ≤ cum + cumWeight table (m + 1)) →
      ∃ ft w, table[n]? = some (ft, w) ∧ selectFailureLoop rand table cum = ft := by
  intro table
  induction table with
  | nil =>
    intro cum n hn
    simp at hn
  | cons p t ih =>
    intro cum n hn hle hmin
    obtain ⟨ft, w⟩ := p
    have hcw : ∀ j : ℕ, cumWeight ((ft, w) :: t) (j + 1) = w + cumWeight t j := by
      intro j
      simp [cumWeight]
    cases n with
    | zero =>
      have h1 : rand ≤ cum + w := by
        rw [hcw 0] at hle
        simp only [cumWeight, List.take_zero, List.map_nil, List.sum_nil,
          add_zero] at hle
        exact hle
      refine ⟨ft, w, by simp, ?_⟩
      simp only [selectFailureLoop]
      rw [if_pos h1]
    | succ m =>
      have h0 : ¬ rand ≤ cum + w := by
        have := hmin 0 (Nat.succ_pos m)
        rw [hcw 0] at this
        simp only [cumWeight, List.take_zero, List.map_nil, List.sum_nil,
          add_zero] at this
        exact this
      have hm : m < t.length := by simpa using Nat.lt_of_succ_lt_succ hn
      rw [hcw (m + 1)] at hle
      obtain ⟨ft2, w2, hget, hsel⟩ := ih (cum + w) m hm (by linarith)
        (by
          intro j hj
          have hjj := hmin (j + 1) (Nat.succ_lt_succ hj)
          rw [hcw (j + 1)] at hjj
          intro hle2
          exact hjj (by linarith))
      refine ⟨ft2, w2, by simpa using hget, ?_⟩
      simp only [selectFailureLoop]
      rw [if_neg h0]
      exact hsel

/-- C8 (confirmed): for every configured provider and every draw in [0,1),
category selection returns the entry at the least index whose cumulative
weight meets or exceeds the draw; and whenever the walk selects no entry,
selection totalises by returning network_timeout rather than failing. -/
theorem c8_weighted_selection (p : String)
    (hp : p = "skiclubpro" ∨ p = "daysmart" ∨ p = "campminder")
    (rand : ℚ) (h0 : 0 ≤ rand) (h1 : rand < 1) :
    (∃ n ft w, n < (failure_types p).length ∧
      (failure_types p)[n]? = some (ft, w) ∧
      rand ≤ cumWeight (failure_types p) (n + 1) ∧
      (∀ m, m < n → ¬ rand ≤ cumWeight (failure_types p) (m + 1)) ∧
      selectFailureType (failure_types p) rand = ft) ∧
    (∀ table : List (FailureType × ℚ),
      (∀ m, m < table.length → ¬ rand ≤ cumWeight table (m + 1)) →
      selectFailureType table rand = .network_timeout) := by
  constructor
  · have hlen : 0 < (failure_types p).length := by
      rcases hp with h | h | h <;> subst h <;>
        simp [failure_types_ski, failure_types_day, failure_types_camp,
          skiclubproTable, daysmartTable, campminderTable]
    have hful : rand ≤ cumWeight (failure_types p) ((failure_types p).length) := by
      have hone : cumWeight (failure_types p) ((failure_types p).length) = 1 := by
        rcases hp with h | h | h <;> subst h <;>
          norm_num [failure_types_ski, failure_types_day, failure_types_camp,
            cumWeight, skiclubproTable, daysmartTable, campminderTable]
      rw [hone]
      linarith
    have hex : ∃ n, rand ≤ cumWeight (failure_types p) (n + 1) := by
      refine ⟨(failure_types p).length - 1, ?_⟩
      rw [Nat.sub_add_cancel hlen]
      exact hful
    classical
    obtain ⟨n, hPn, hmin⟩ :
        ∃ n, rand ≤ cumWeight (failure_types p) (n + 1) ∧
          ∀ m, m < n → ¬ rand ≤ cumWeight (failure_types p) (m + 1) :=
      ⟨Nat.find hex, Nat.find_spec hex, fun m hm => Nat.find_min hex hm⟩
    have hn : n < (failure_types p).length := by
      by_contra hge
      push_neg at hge
      have hlt : (failure_types p).length - 1 < n := by omega
      exact hmin _ hlt (by rw [Nat.sub_add_cancel hlen]; exact hful)
    obtain ⟨ft, w, hget, hsel⟩ := selectFailureLoop_hit rand (failure_types p) 0 n
      hn (by simpa using hPn) (by intro m hm; simpa using hmin m hm)
    exact ⟨n, ft, w, hn, hget, hPn, hmin, hsel⟩
  · intro table hmiss
    exact selectFailureLoop_all_miss rand table 0
      (by intro m hm; simpa using hmiss m hm)

/-- C8 witness: the selection characterisation instantiated at provider
skiclubpro with draw 1/2. -/
theorem c8_witness :
    ((0 : ℚ) ≤ 1/2 ∧ (1/2 : ℚ) < 1) ∧
    ((∃ n ft w, n < (failure_types "skiclubpro").length ∧
      (failure_types "skiclubpro")[n]? = some (ft, w) ∧
      (1/2 : ℚ) ≤ cumWeight (failure_types "skiclubpro") (n + 1) ∧
      (∀ m, m < n → ¬ (1/2 : ℚ) ≤ cumWeight (failure_types "skiclubpro") (m + 1)) ∧
      selectFailureType (failure_types "skiclubpro") (1/2) = ft) ∧
    (∀ table : List (FailureType × ℚ),
      (∀ m, m < table.length → ¬ (1/2 : ℚ) ≤ cumWeight table (m + 1)) →
      selectFailureType table (1/2) = .network_timeout)) :=
  ⟨⟨by norm_num, by norm_num⟩,
   c8_weighted_selection "skiclubpro" (Or.inl rfl) (1/2) (by norm_num)
     (by norm_num)⟩

/-! ## Claim C9 -/

/-- The retry list of the full cascade is exactly the retry list of the
3-round loop (the post-loop manual-intervention block never touches the
attempt list), unless the category is ineligible and the list is empty. -/
lemma simulate_retries_snd (orig : SignupAttempt) (inc : FailureIncident)
    (draws : ℕ → ℚ)
    (he : ¬(inc.failure_type = .program_full ∨ inc.failure_type = .payment_declined)) :
    (simulate_retries orig inc draws).2 = (retryRounds orig draws 3 0 inc).2 := by
  unfold simulate_retries
  rw [if_neg he]
  by_cases h : (retryRounds orig draws 3 0 inc).1.resolved <;> simp [h]

/-- Every element of the loop's retry list is a `mkRetryAttempt` of the
unchanged incident, with round number = position + rounds already done + 1. -/
lemma retryRounds_mem (orig : SignupAttempt) (draws : ℕ → ℚ) :
    ∀ (fuel done : ℕ) (inc : FailureIncident) (i : ℕ) (a : SignupAttempt),
      ((retryRounds orig draws fuel done inc).2)[i]? = some a →
      ∃ b, a = mkRetryAttempt orig inc (done + i + 1) b := by
  intro fuel
  induction fuel with
  | zero =>
    intro done inc i a h
    simp [retryRounds] at h
  | succ f ih =>
    intro done inc i a h
    simp only [retryRounds] at h
    by_cases hr : inc.resolved
    · rw [if_pos hr] at h
      simp at h
    · rw [if_neg hr] at h
      by_cases hd : draws done < 4/5
      · rw [if_pos hd] at h
        cases i with
        | zero =>
          simp at h
          exact ⟨true, h.symm⟩
        | succ j => simp at h
      · rw [if_neg hd] at h
        cases i with
        | zero =>
          simp at h
          exact ⟨false, h.symm⟩
        | succ j =>
          simp only [List.getElem?_cons_succ] at h
          obtain ⟨b, hb⟩ := ih (done + 1) inc j a h
          rw [show done + 1 + j + 1 = done + (j + 1) + 1 from by omega] at hb
          exact ⟨b, hb⟩

/-- C9 (confirmed): every retry attempt the cascade creates carries the
original attempt's user_id, provider, and program_id; its id is the
original id suffixed with "_retry_" and the 1-indexed round number; its
`retry_of` is the original attempt id; and it carries no incident
back-reference. -/
theorem c9_retry_attempt_fields (orig : SignupAttempt) (inc : FailureIncident)
    (draws : ℕ → ℚ) (i : ℕ) (a : SignupAttempt)
    (h : ((simulate_retries orig inc draws).2)[i]? = some a) :
    a.user_id = orig.user_id ∧ a.provider = orig.provider ∧
    a.program_id = orig.program_id ∧
    a.signup_id = orig.signup_id ++ "_retry_" ++ toString (i + 1) ∧
    a.retry_of = some orig.signup_id ∧
    a.failure_incident = none := by
  by_cases he : inc.failure_type = .program_full ∨ inc.failure_type = .payment_declined
  · unfold simulate_retries at h
    rw [if_pos he] at h
    simp at h
  · rw [simulate_retries_snd orig inc draws he] at h
    obtain ⟨b, hb⟩ := retryRounds_mem orig draws 3 0 inc i a h
    subst hb
    simp [mkRetryAttempt]

/-- C9 witness: the second retry attempt of the concrete all-fail cascade. -/
theorem c9_witness :
    ((simulate_retries origAttempt ntIncident allFailDraws).2)[1]? =
      some (mkRetryAttempt origAttempt ntIncident 2 false) ∧
    ((mkRetryAttempt origAttempt ntIncident 2 false).user_id =
        origAttempt.user_id ∧
      (mkRetryAttempt origAttempt ntIncident 2 false).provider =
        origAttempt.provider ∧
      (mkRetryAttempt origAttempt ntIncident 2 false).program_id =
        origAttempt.program_id ∧
      (mkRetryAttempt origAttempt ntIncident 2 false).signup_id =
        origAttempt.signup_id ++ "_retry_" ++ toString (1 + 1) ∧
      (mkRetryAttempt origAttempt ntIncident 2 false).retry_of =
        some origAttempt.signup_id ∧
      (mkRetryAttempt origAttempt ntIncident 2 false).failure_incident = none) := by
  have h : ((simulate_retries origAttempt ntIncident allFailDraws).2)[1]? =
      some (mkRetryAttempt origAttempt ntIncident 2 false) := by
    norm_num [simulate_retries, retryRounds, ntIncident, origAttempt, allFailDraws]
    rw [if_neg (by decide :
      ¬(FailureType.network_timeout = FailureType.program_full ∨
        FailureType.network_timeout = FailureType.payment_declined))]
    simp [mkRetryAttempt, ntIncident, origAttempt]
  exact ⟨h, c9_retry_attempt_fields origAttempt ntIncident allFailDraws 1
    (mkRetryAttempt origAttempt ntIncident 2 false) h⟩

/-! ## Claim C10 -/

/-- The 3-round loop either returns the incident unchanged or returns it
with only `resolved`, `resolution_time`, `retry_count` updated. -/
lemma retryRounds_fst (orig : SignupAttempt) (draws : ℕ → ℚ) :
    ∀ (fuel done : ℕ) (inc : FailureIncident),
      (retryRounds orig draws fuel done inc).1 = inc ∨
      ∃ rt rc, (retryRounds orig draws fuel done inc).1 =
        { inc with resolved := true, resolution_time := some rt,
                   retry_count := rc } := by
  intro fuel
  induction fuel with
  | zero =>
    intro done inc
    left
    rfl
  | succ f ih =>
    intro done inc
    by_cases hr : inc.resolved
    · left
      simp [retryRounds, hr]
    · by_cases hd : draws done < 4/5
      · right
        refine ⟨inc.timestamp + (done + 1) * 5, done + 1, ?_⟩
        simp [retryRounds, hr, hd]
      · have hnext := ih (done + 1) inc
        have hstep : (retryRounds orig draws (f + 1) done inc).1 =
            (retryRounds orig draws f (done + 1) inc).1 := by
          simp [retryRounds, hr, hd]
        rw [hstep]
        exact hnext

/-- C10 (confirmed): a cascade run never changes the incident's
incident_id, signup_id, provider, failure_type, timestamp, or
error_message; and whenever the final incident is resolved, its
manual_intervention and intervention_type are exactly as the classifier
left them (the post-loop block runs only on unresolved incidents). -/
theorem c10_incident_frame (orig : SignupAttempt) (inc : FailureIncident)
    (draws : ℕ → ℚ) :
    (simulate_retries orig inc draws).1.incident_id = inc.incident_id ∧
    (simulate_retries orig inc draws).1.signup_id = inc.signup_id ∧
    (simulate_retries orig inc draws).1.provider = inc.provider ∧
    (simulate_retries orig inc draws).1.failure_type = inc.failure_type ∧
    (simulate_retries orig inc draws).1.timestamp = inc.timestamp ∧
    (simulate_retries orig inc draws).1.error_message = inc.error_message ∧
    ((simulate_retries orig inc draws).1.resolved = true →
      (simulate_retries orig inc draws).1.manual_intervention =
        inc.manual_intervention ∧
      (simulate_retries orig inc draws).1.intervention_type =
        inc.intervention_type) := by
  by_cases he : inc.failure_type = .program_full ∨ inc.failure_type = .payment_declined
  · have hval : simulate_retries orig inc draws = (inc, []) := by
      unfold simulate_retries
      rw [if_pos he]
    rw [hval]
    simp
  · rcases retryRounds_fst orig draws 3 0 inc with hcase | ⟨rt, rc, hcase⟩
    · by_cases hres : (retryRounds orig draws 3 0 inc).1.resolved = true
      · have hval : (simulate_retries orig inc draws).1 = inc := by
          unfold simulate_retries
          rw [if_neg he]
          simp only [hres, if_true]
          exact hcase
        rw [hval]
        simp
      · have hval : (simulate_retries orig inc draws).1 =
            { inc with
                manual_intervention := true
                intervention_type :=
                  match inc.intervention_type with
                  | none => some InterventionType.customer_support
                  | some t => some t } := by
          unfold simulate_retries
          rw [if_neg he]
          simp only [hres, if_false, Bool.false_eq_true]
          rw [hcase]
          rw [hcase] at hres
          simp only [Bool.not_eq_true] at hres
          rw [hres]
        rw [hval]
        refine ⟨rfl, rfl, rfl, rfl, rfl, rfl, ?_⟩
        intro habs
        rw [hcase] at hres
        simp only at habs
        exact absurd habs hres
    · have hres : (retryRounds orig draws 3 0 inc).1.resolved = true := by
        rw [hcase]
      have hval : (simulate_retries orig inc draws).1 =
          (retryRounds orig draws 3 0 inc).1 := by
        unfold simulate_retries
        rw [if_neg he]
        simp only [hres, if_true]
      rw [hval, hcase]
      simp

/-- C10 witness: the frame property instantiated at the concrete cascade
that resolves in round 2. -/
theorem c10_witness :
    (simulate_retries origAttempt ntIncident failThenOkDraws).1.incident_id =
      ntIncident.incident_id ∧
    (simulate_retries origAttempt ntIncident failThenOkDraws).1.signup_id =
      ntIncident.signup_id ∧
    (simulate_retries origAttempt ntIncident failThenOkDraws).1.provider =
      ntIncident.provider ∧
    (simulate_retries origAttempt ntIncident failThenOkDraws).1.failure_type =
      ntIncident.failure_type ∧
    (simulate_retries origAttempt ntIncident failThenOkDraws).1.timestamp =
      ntIncident.timestamp ∧
    (simulate_retries origAttempt ntIncident failThenOkDraws).1.error_message =
      ntIncident.error_message ∧
    ((simulate_retries origAttempt ntIncident failThenOkDraws).1.resolved = true →
      (simulate_retries origAttempt ntIncident failThenOkDraws).1.manual_intervention =
        ntIncident.manual_intervention ∧
      (simulate_retries origAttempt ntIncident failThenOkDraws).1.intervention_type =
        ntIncident.intervention_type) :=
  c10_incident_frame origAttempt ntIncident failThenOkDraws
